import Mathlib

/-!
Verification of the DailVue conference orchestration core
(`src/composables/useConference.ts`, `src/composables/useSipClient.ts`,
`src/utils/abortController.ts`) against its natural-language specification.

The TypeScript composable is shallowly embedded: the reactive composable
state becomes an explicit `ConfComposable` record threaded through each
operation, JS `Map` becomes an insertion-ordered association list,
asynchronous SIP-client calls become an explicit `Except String Unit`
outcome parameter (the result of the remote call when it is invoked),
thrown `Error(message)` values become `Except String` results, and
`setInterval` / `clearInterval` calls are logged in a `timerOps` trace.
Fresh identifiers (the TS code derives them from `Date.now()` plus a
random suffix) are modelled by a monotone counter `nextId`.
Wall-clock fields (`joinedAt`, timestamps on events) and the opaque
`metadata` payload carry no behavioural content and are omitted;
`startedAt` / `endedAt` are kept as set/unset flags.
-/

namespace DailVue

/-- Modelled from the spec: `CONFERENCE_CONSTANTS.DEFAULT_MAX_PARTICIPANTS`
lives in `composables/constants`, which is not part of the sources at hand;
the source doc comments of `createConference` state the default is 10. -/
def DEFAULT_MAX_PARTICIPANTS : Nat := 10

/-- Modelled from the spec: conference lifecycle states `Idle → Creating →
Active → Ending → Ended`, with `Failed`, as used throughout
`useConference.ts` (the enum declaration in `types/conference.types` is not
among the sources at hand). -/
inductive ConferenceState where
  | Idle
  | Creating
  | Active
  | Ending
  | Ended
  | Failed
deriving DecidableEq, Repr

/-- Modelled from the spec: participant states as used in `useConference.ts`
(`Connecting` on optimistic insert, `Connected` on confirmation,
`Disconnected` on removal). -/
inductive ParticipantState where
  | Connecting
  | Connected
  | Disconnected
deriving DecidableEq, Repr

/-- A conference participant (`Participant` record).  `joinedAt` and the
poll-updated `audioLevel` are omitted (wall clock / polling payload). -/
structure Participant where
  id : Nat
  uri : String
  displayName : Option String
  state : ParticipantState
  isMuted : Bool
  isOnHold : Bool
  isModerator : Bool
  isSelf : Bool
deriving DecidableEq, Repr

/-- `ConferenceStateInterface`: the conference object held in
`conference.value`.  `participants` is the JS `Map` as an insertion-ordered
association list; `startedAt` / `endedAt` are kept as set/unset flags. -/
structure ConferenceData where
  id : Nat
  state : ConferenceState
  uri : Option String
  participants : List (Nat × Participant)
  isLocked : Bool
  isRecording : Bool
  maxParticipants : Nat
  localParticipant : Option Participant
  startedAt : Bool
  endedAt : Bool
deriving DecidableEq, Repr

/-- `ConferenceOptions` (`maxParticipants?`, `locked?`; `metadata` omitted). -/
structure ConferenceOptions where
  maxParticipants : Option Nat
  locked : Option Bool
deriving DecidableEq, Repr

/-- JS `Map.get` on an insertion-ordered association list (a JS `Map`
holds each key at most once, so first-match search is exact). -/
def mapGet : List (Nat × Participant) → Nat → Option Participant
  | [], _ => none
  | q :: rest, k => if q.1 = k then some q.2 else mapGet rest k

/-- JS `Map.set`: replace the entry in place when the key is present,
append a new entry otherwise. -/
def mapSet : List (Nat × Participant) → Nat → Participant →
    List (Nat × Participant)
  | [], k, v => [(k, v)]
  | q :: rest, k, v => if q.1 = k then (k, v) :: rest else q :: mapSet rest k v

/-- JS `Map.delete`: drop the entry with the given key, if present. -/
def mapDelete : List (Nat × Participant) → Nat → List (Nat × Participant)
  | [], _ => []
  | q :: rest, k => if q.1 = k then rest else q :: mapDelete rest k

/-- Conference events (`ConferenceEvent` union); the `timestamp : Date`
field of each variant is omitted. -/
inductive ConferenceEvent where
  | created (conferenceId : Nat) (state : ConferenceState)
  | stateChanged (conferenceId : Nat) (state : ConferenceState)
  | participantJoined (conferenceId : Nat) (participant : Participant)
  | participantLeft (conferenceId : Nat) (participant : Participant)
      (reason : Option String)
  | participantUpdated (conferenceId : Nat) (participant : Participant)
      (isMutedChange : Bool)
  | audioLevel (conferenceId : Nat)
  | locked (conferenceId : Nat)
  | unlocked (conferenceId : Nat)
  | recordingStarted (conferenceId : Nat)
  | recordingStopped (conferenceId : Nat)
deriving DecidableEq, Repr

/-- One `window.setInterval` / `clearInterval` call, recorded in a trace. -/
inductive TimerOp where
  | set (id : Nat)
  | clear (id : Nat)
deriving DecidableEq, Repr

/-- The reactive state of one `useConference` composable instance.
`hasClient` models `sipClient.value !== null`; `nextId` is the fresh-id
source for conference and participant ids; `nextTimerId` for interval
handles; `timerOps` logs every `setInterval` / `clearInterval`;
`clearScheduledCount` counts the pending `setTimeout` callbacks scheduled
by `endConference` to null out `conference.value`. -/
structure ConfComposable where
  conference : Option ConferenceData
  hasClient : Bool
  audioLevelInterval : Option Nat
  nextId : Nat
  nextTimerId : Nat
  timerOps : List TimerOp
  clearScheduledCount : Nat
deriving DecidableEq, Repr

deriving instance DecidableEq for Except

/-- Outcome of one composable operation: the returned / thrown value, the
post-state, and the conference events emitted (in order). -/
structure OpResult (α : Type) where
  result : Except String α
  state : ConfComposable
  events : List ConferenceEvent
deriving DecidableEq, Repr

/-- Fresh composable state (`conference = ref(null)` etc.). -/
def initState (hasClient : Bool) : ConfComposable :=
  { conference := none
    hasClient := hasClient
    audioLevelInterval := none
    nextId := 0
    nextTimerId := 0
    timerOps := []
    clearScheduledCount := 0 }

/-- The computed `state`: `conference.value?.state || ConferenceState.Idle`. -/
def stateOf (s : ConfComposable) : ConferenceState :=
  match s.conference with
  | none => ConferenceState.Idle
  | some c => c.state

/-- The computed `isActive`. -/
def isActiveOf (s : ConfComposable) : Bool :=
  stateOf s = ConferenceState.Active

/-- The computed `isLocked`: `conference.value?.isLocked || false`. -/
def isLockedOf (s : ConfComposable) : Bool :=
  match s.conference with
  | none => false
  | some c => c.isLocked

/-- The computed `participantCount`: `conference.value?.participants.size || 0`. -/
def participantCountOf (s : ConfComposable) : Nat :=
  match s.conference with
  | none => 0
  | some c => c.participants.length

/-- JS `x || d` on an optional number (`undefined` and `0` are falsy). -/
def orDefaultNat (v : Option Nat) (d : Nat) : Nat :=
  match v with
  | some m => if m = 0 then d else m
  | none => d

/-- JS `b || false` on an optional boolean. -/
def orFalse (b : Option Bool) : Bool := b.getD false

/-- `updateConferenceState`: transition the conference (if any) to
`newState`, set `endedAt` when entering `Ended`, and emit `state:changed`. -/
def updateConferenceState (s : ConfComposable) (newState : ConferenceState) :
    ConfComposable × List ConferenceEvent :=
  match s.conference with
  | none => (s, [])
  | some c =>
    let c2 := { c with
      state := newState
      endedAt := if newState = ConferenceState.Ended then true else c.endedAt }
    ({ s with conference := some c2 }, [ConferenceEvent.stateChanged c.id newState])

/-- `startAudioLevelMonitoring`: no-op when an interval is already running,
otherwise start a fresh `setInterval` (logged in `timerOps`).  The poll
callback itself only republishes audio levels and is not modelled. -/
def startAudioLevelMonitoring (s : ConfComposable) : ConfComposable :=
  match s.audioLevelInterval with
  | some _ => s
  | none =>
    { s with
      audioLevelInterval := some s.nextTimerId
      nextTimerId := s.nextTimerId + 1
      timerOps := s.timerOps ++ [TimerOp.set s.nextTimerId] }

/-- `stopAudioLevelMonitoring`: clear the interval if one is running. -/
def stopAudioLevelMonitoring (s : ConfComposable) : ConfComposable :=
  match s.audioLevelInterval with
  | none => s
  | some t =>
    { s with
      audioLevelInterval := none
      timerOps := s.timerOps ++ [TimerOp.clear t] }

/-- `createConference(options)`.  `remote` is the outcome of the awaited
`sipClient.createConference` server call; `localUri` / `localDisplayName`
come from `sipClient.getConfig()`. -/
def createConference (s : ConfComposable) (remote : Except String Unit)
    (options : ConferenceOptions) (localUri : String)
    (localDisplayName : Option String) : OpResult Nat :=
  if s.hasClient = false then
    { result := Except.error "SIP client not initialized", state := s, events := [] }
  else if s.conference.isSome && isActiveOf s then
    { result := Except.error "A conference is already active", state := s, events := [] }
  else
    let conferenceId := s.nextId
    let localPart : Participant :=
      { id := s.nextId + 1
        uri := localUri
        displayName := localDisplayName
        state := ParticipantState.Connected
        isMuted := false
        isOnHold := false
        isModerator := true
        isSelf := true }
    let c1 : ConferenceData :=
      { id := conferenceId
        state := ConferenceState.Creating
        uri := none
        participants := mapSet [] localPart.id localPart
        isLocked := orFalse options.locked
        isRecording := false
        maxParticipants := orDefaultNat options.maxParticipants DEFAULT_MAX_PARTICIPANTS
        localParticipant := some localPart
        startedAt := false
        endedAt := false }
    let s1 := { s with conference := some c1, nextId := s.nextId + 2 }
    match remote with
    | Except.error e =>
      let p := updateConferenceState s1 ConferenceState.Failed
      { result := Except.error e, state := p.1, events := p.2 }
    | Except.ok _ =>
      let c2 := { c1 with state := ConferenceState.Active, startedAt := true }
      let s2 := startAudioLevelMonitoring { s1 with conference := some c2 }
      { result := Except.ok conferenceId
        state := s2
        events := [ConferenceEvent.created conferenceId ConferenceState.Active] }

/-- `joinConference(conferenceUri, options)`.  `remote` is the outcome of
the awaited `sipClient.joinConference` call.  Note: the source creates no
local participant here; the participants map starts (and stays) empty. -/
def joinConference (s : ConfComposable) (remote : Except String Unit)
    (conferenceUri : String) (options : ConferenceOptions) : OpResult Unit :=
  if s.hasClient = false then
    { result := Except.error "SIP client not initialized", state := s, events := [] }
  else
    let conferenceId := s.nextId
    let c1 : ConferenceData :=
      { id := conferenceId
        state := ConferenceState.Creating
        uri := some conferenceUri
        participants := []
        isLocked := false
        isRecording := false
        maxParticipants := orDefaultNat options.maxParticipants DEFAULT_MAX_PARTICIPANTS
        localParticipant := none
        startedAt := false
        endedAt := false }
    let s1 := { s with conference := some c1, nextId := s.nextId + 1 }
    match remote with
    | Except.error e =>
      let p := updateConferenceState s1 ConferenceState.Failed
      { result := Except.error e, state := p.1, events := p.2 }
    | Except.ok _ =>
      let c2 := { c1 with state := ConferenceState.Active, startedAt := true }
      let s2 := startAudioLevelMonitoring { s1 with conference := some c2 }
      { result := Except.ok (), state := s2, events := [] }

/-- `addParticipant(uri, displayName)`.  `remote` is the outcome of the
awaited `sipClient.inviteToConference` call (invoked only when the client
is present).  The participant is inserted optimistically (state
`Connecting`) before the invite, then flipped to `Connected`. -/
def addParticipant (s : ConfComposable) (remote : Except String Unit)
    (uri : String) (displayName : Option String) : OpResult Nat :=
  match s.conference with
  | none => { result := Except.error "No active conference", state := s, events := [] }
  | some c =>
    if c.isLocked then
      { result := Except.error "Conference is locked", state := s, events := [] }
    else if orDefaultNat (some c.maxParticipants) DEFAULT_MAX_PARTICIPANTS ≤
        c.participants.length then
      { result := Except.error "Conference is full", state := s, events := [] }
    else
      let participantId := s.nextId
      let participant : Participant :=
        { id := participantId
          uri := uri
          displayName := displayName
          state := ParticipantState.Connecting
          isMuted := false
          isOnHold := false
          isModerator := false
          isSelf := false }
      let c1 := { c with participants := mapSet c.participants participantId participant }
      let s1 := { s with conference := some c1, nextId := s.nextId + 1 }
      match (if s.hasClient then remote else Except.ok ()) with
      | Except.error e => { result := Except.error e, state := s1, events := [] }
      | Except.ok _ =>
        let participant2 := { participant with state := ParticipantState.Connected }
        let c2 := { c1 with
          participants := mapSet c1.participants participantId participant2 }
        { result := Except.ok participantId
          state := { s1 with conference := some c2 }
          events := [ConferenceEvent.participantJoined c.id participant2] }

/-- `removeParticipant(participantId, reason)`.  `remote` is the outcome of
the awaited `sipClient.removeFromConference` call. -/
def removeParticipant (s : ConfComposable) (remote : Except String Unit)
    (participantId : Nat) (reason : Option String) : OpResult Unit :=
  match s.conference with
  | none => { result := Except.error "No active conference", state := s, events := [] }
  | some c =>
    match mapGet c.participants participantId with
    | none =>
      { result := Except.error ("Participant " ++ toString participantId ++ " not found")
        state := s, events := [] }
    | some participant =>
      if participant.isSelf then
        { result := Except.error "Cannot remove yourself, use endConference() instead"
          state := s, events := [] }
      else
        let p1 := { participant with state := ParticipantState.Disconnected }
        let c1 := { c with participants := mapSet c.participants participantId p1 }
        let s1 := { s with conference := some c1 }
        match (if s.hasClient then remote else Except.ok ()) with
        | Except.error e => { result := Except.error e, state := s1, events := [] }
        | Except.ok _ =>
          let c2 := { c1 with participants := mapDelete c1.participants participantId }
          { result := Except.ok ()
            state := { s1 with conference := some c2 }
            events := [ConferenceEvent.participantLeft c.id p1 reason] }

/-- `muteParticipant(participantId)`.  `remote` is the outcome of the
awaited client call (`muteAudio` for the local participant,
`muteParticipant` otherwise; both are guarded by the client's presence and
only their choice differs, so a single outcome parameter models both). -/
def muteParticipant (s : ConfComposable) (remote : Except String Unit)
    (participantId : Nat) : OpResult Unit :=
  match s.conference with
  | none => { result := Except.error "No active conference", state := s, events := [] }
  | some c =>
    match mapGet c.participants participantId with
    | none =>
      { result := Except.error ("Participant " ++ toString participantId ++ " not found")
        state := s, events := [] }
    | some participant =>
      if participant.isMuted then
        { result := Except.ok (), state := s, events := [] }
      else
        match (if s.hasClient then remote else Except.ok ()) with
        | Except.error e => { result := Except.error e, state := s, events := [] }
        | Except.ok _ =>
          let p1 := { participant with isMuted := true }
          let c1 := { c with participants := mapSet c.participants participantId p1 }
          { result := Except.ok ()
            state := { s with conference := some c1 }
            events := [ConferenceEvent.participantUpdated c.id p1 true] }

/-- `unmuteParticipant(participantId)`: mirror image of `muteParticipant`. -/
def unmuteParticipant (s : ConfComposable) (remote : Except String Unit)
    (participantId : Nat) : OpResult Unit :=
  match s.conference with
  | none => { result := Except.error "No active conference", state := s, events := [] }
  | some c =>
    match mapGet c.participants participantId with
    | none =>
      { result := Except.error ("Participant " ++ toString participantId ++ " not found")
        state := s, events := [] }
    | some participant =>
      if participant.isMuted = false then
        { result := Except.ok (), state := s, events := [] }
      else
        match (if s.hasClient then remote else Except.ok ()) with
        | Except.error e => { result := Except.error e, state := s, events := [] }
        | Except.ok _ =>
          let p1 := { participant with isMuted := false }
          let c1 := { c with participants := mapSet c.participants participantId p1 }
          { result := Except.ok ()
            state := { s with conference := some c1 }
            events := [ConferenceEvent.participantUpdated c.id p1 false] }

/-- `endConference()`.  `remote` is the outcome of the awaited
`sipClient.endConference` call.  The trailing `setTimeout` that nulls out
`conference.value` after `STATE_TRANSITION_DELAY` is modelled by
incrementing `clearScheduledCount`; its later firing is a separate step
(`fireScheduledClear`). -/
def endConference (s : ConfComposable) (remote : Except String Unit) :
    OpResult Unit :=
  match s.conference with
  | none => { result := Except.error "No active conference", state := s, events := [] }
  | some _ =>
    let p1 := updateConferenceState s ConferenceState.Ending
    match (if p1.1.hasClient then remote else Except.ok ()) with
    | Except.error e => { result := Except.error e, state := p1.1, events := p1.2 }
    | Except.ok _ =>
      let s2 := stopAudioLevelMonitoring p1.1
      let p3 := updateConferenceState s2 ConferenceState.Ended
      { result := Except.ok ()
        state := { p3.1 with clearScheduledCount := p3.1.clearScheduledCount + 1 }
        events := p1.2 ++ p3.2 }

/-- The `setTimeout` callback scheduled by `endConference` firing:
`conference.value = null`. -/
def fireScheduledClear (s : ConfComposable) : ConfComposable :=
  { s with conference := none, clearScheduledCount := s.clearScheduledCount - 1 }

/-- `lockConference()`. -/
def lockConference (s : ConfComposable) : OpResult Unit :=
  match s.conference with
  | none => { result := Except.error "No active conference", state := s, events := [] }
  | some c =>
    if c.isLocked then
      { result := Except.ok (), state := s, events := [] }
    else
      { result := Except.ok ()
        state := { s with conference := some { c with isLocked := true } }
        events := [ConferenceEvent.locked c.id] }

/-- `unlockConference()`. -/
def unlockConference (s : ConfComposable) : OpResult Unit :=
  match s.conference with
  | none => { result := Except.error "No active conference", state := s, events := [] }
  | some c =>
    if c.isLocked = false then
      { result := Except.ok (), state := s, events := [] }
    else
      { result := Except.ok ()
        state := { s with conference := some { c with isLocked := false } }
        events := [ConferenceEvent.unlocked c.id] }

/-- `startRecording()`.  `remote` is the outcome of the awaited
`sipClient.startConferenceRecording` call. -/
def startRecording (s : ConfComposable) (remote : Except String Unit) :
    OpResult Unit :=
  match s.conference with
  | none => { result := Except.error "No active conference", state := s, events := [] }
  | some c =>
    if c.isRecording then
      { result := Except.ok (), state := s, events := [] }
    else
      match (if s.hasClient then remote else Except.ok ()) with
      | Except.error e => { result := Except.error e, state := s, events := [] }
      | Except.ok _ =>
        { result := Except.ok ()
          state := { s with conference := some { c with isRecording := true } }
          events := [ConferenceEvent.recordingStarted c.id] }

/-- `stopRecording()`.  `remote` is the outcome of the awaited
`sipClient.stopConferenceRecording` call. -/
def stopRecording (s : ConfComposable) (remote : Except String Unit) :
    OpResult Unit :=
  match s.conference with
  | none => { result := Except.error "No active conference", state := s, events := [] }
  | some c =>
    if c.isRecording = false then
      { result := Except.ok (), state := s, events := [] }
    else
      match (if s.hasClient then remote else Except.ok ()) with
      | Except.error e => { result := Except.error e, state := s, events := [] }
      | Except.ok _ =>
        { result := Except.ok ()
          state := { s with conference := some { c with isRecording := false } }
          events := [ConferenceEvent.recordingStopped c.id] }

/-- `getParticipant(participantId)`. -/
def getParticipant (s : ConfComposable) (participantId : Nat) : Option Participant :=
  match s.conference with
  | none => none
  | some c => mapGet c.participants participantId

/-- One registered conference-event listener (an entry of
`conferenceEventListeners.value`): an identity and its behaviour on an
event — `Except.error msg` models the callback throwing. -/
structure ConfListener where
  ident : Nat
  run : ConferenceEvent → Except String Unit

/-- `emitConferenceEvent`: the `forEach` loop over the registered
listeners.  Each listener is invoked inside `try { listener(event) } catch
{ log }`, so a throwing listener is logged (recorded as `some msg`) and the
loop continues; the function itself always returns the invocation log and
never propagates an exception. -/
def emitConferenceEvent : List ConfListener → ConferenceEvent →
    List (Nat × Option String)
  | [], _ => []
  | l :: rest, e =>
    match l.run e with
    | Except.ok _ => (l.ident, none) :: emitConferenceEvent rest e
    | Except.error msg => (l.ident, some msg) :: emitConferenceEvent rest e

/-- One entry of `eventBusInstanceCounts` (the `WeakMap<EventBus, number>`
of `useSipClient.ts`) for a fixed bus: `none` means no entry. -/
def busCount (entry : Option Nat) : Nat := entry.getD 0

/-- The attachment bookkeeping at the top of `useSipClient`: read the
current count (defaulting to 0), warn when another owner is already
attached, store count + 1.  Returns the new entry and whether the
diagnostic warning was logged. -/
def attachToBus (entry : Option Nat) : Option Nat × Bool :=
  let currentCount := busCount entry
  (some (currentCount + 1), decide (0 < currentCount))

/-- The decrement in the cleanup function returned by
`setupEventListeners`: read the count (defaulting to 1), delete the entry
when it is ≤ 1, otherwise store count − 1. -/
def cleanupBus (entry : Option Nat) : Option Nat :=
  let count := entry.getD 1
  if count ≤ 1 then none else some (count - 1)

/-- `DOMException(message, name)` as used by `abortController.ts`. -/
structure DOMExceptionModel where
  message : String
  name : String
deriving DecidableEq, Repr

/-- `createAbortError(message)`: a `DOMException` named `AbortError`. -/
def createAbortError (message : String) : DOMExceptionModel :=
  { message := message, name := "AbortError" }

/-- `isAbortError` restricted to `DOMException` inputs (the `instanceof`
test): the name is `AbortError`. -/
def isAbortError (e : DOMExceptionModel) : Bool := e.name = "AbortError"

/-- The fate of an `AbortSignal` relative to one `abortableSleep` call:
already aborted when the call starts, aborted while the timer is pending,
or never aborted. -/
inductive SignalFate where
  | abortedAtStart
  | abortsDuringWait
  | neverAborts
deriving DecidableEq, Repr

/-- Observable outcome of one `abortableSleep` call: how the promise
settles, whether a timer was created, whether `clearTimeout` ran, and the
elapsed wait when the sleep ran to completion. -/
structure SleepOutcome where
  result : Except DOMExceptionModel Unit
  timerSet : Bool
  timerCleared : Bool
  resolvedAfter : Option Nat
deriving DecidableEq, Repr

/-- `abortableSleep(ms, signal)`: reject immediately when the signal is
already aborted (no timer is created); otherwise start the timeout; the
`abort` handler clears the timeout and rejects; with no abort the promise
resolves after `ms` milliseconds. -/
def abortableSleep (ms : Nat) (signal : Option SignalFate) : SleepOutcome :=
  match signal with
  | some SignalFate.abortedAtStart =>
    { result := Except.error (createAbortError "Operation aborted")
      timerSet := false, timerCleared := false, resolvedAfter := none }
  | some SignalFate.abortsDuringWait =>
    { result := Except.error (createAbortError "Operation aborted")
      timerSet := true, timerCleared := true, resolvedAfter := none }
  | some SignalFate.neverAborts =>
    { result := Except.ok (), timerSet := true, timerCleared := false
      resolvedAfter := some ms }
  | none =>
    { result := Except.ok (), timerSet := true, timerCleared := false
      resolvedAfter := some ms }

/-- `throwIfAborted(signal)`: `signal` is `none` when absent, otherwise
`some aborted`.  Throws an abort error iff the signal exists and is
aborted (`signal?.aborted`). -/
def throwIfAborted (signal : Option Bool) : Except DOMExceptionModel Unit :=
  if signal.getD false then Except.error (createAbortError "Operation aborted")
  else Except.ok ()

/-- Number of participants flagged `isSelf` in a participants map. -/
def listSelfCount (m : List (Nat × Participant)) : Nat :=
  (m.filter (fun q => q.2.isSelf)).length

/-- All keys of a participants map lie below `n` (freshness of `nextId`). -/
def keysBelow (m : List (Nat × Participant)) (n : Nat) : Prop :=
  ∀ k ∈ m.map Prod.fst, k < n

/-- Well-formedness invariant of a composable state: participant keys are
fresh w.r.t. `nextId` and exactly one participant is flagged `isSelf`. -/
def ConfInv (s : ConfComposable) : Prop :=
  ∀ c, s.conference = some c →
    keysBelow c.participants s.nextId ∧
    listSelfCount c.participants = 1

/-- One step of the composable: any public operation with any arguments
and any remote outcome, or the deferred conference clear firing.
`joinConference` is deliberately not a step: it violates the
one-`isSelf`-participant invariant (it creates no local participant), so
the invariant is stated for the `createConference`-driven lifecycle. -/
inductive Step : ConfComposable → ConfComposable → Prop where
  | create (s : ConfComposable) (remote : Except String Unit)
      (options : ConferenceOptions) (localUri : String)
      (localDisplayName : Option String) :
      Step s (createConference s remote options localUri localDisplayName).state
  | add (s : ConfComposable) (remote : Except String Unit) (uri : String)
      (displayName : Option String) :
      Step s (addParticipant s remote uri displayName).state
  | remove (s : ConfComposable) (remote : Except String Unit)
      (participantId : Nat) (reason : Option String) :
      Step s (removeParticipant s remote participantId reason).state
  | mute (s : ConfComposable) (remote : Except String Unit) (participantId : Nat) :
      Step s (muteParticipant s remote participantId).state
  | unmute (s : ConfComposable) (remote : Except String Unit) (participantId : Nat) :
      Step s (unmuteParticipant s remote participantId).state
  | endConf (s : ConfComposable) (remote : Except String Unit) :
      Step s (endConference s remote).state
  | lock (s : ConfComposable) : Step s (lockConference s).state
  | unlock (s : ConfComposable) : Step s (unlockConference s).state
  | startRec (s : ConfComposable) (remote : Except String Unit) :
      Step s (startRecording s remote).state
  | stopRec (s : ConfComposable) (remote : Except String Unit) :
      Step s (stopRecording s remote).state
  | fireClear (s : ConfComposable) : Step s (fireScheduledClear s)

/-- `k` successive `addParticipant` calls whose remote invites succeed. -/
def addTimes (s : ConfComposable) : Nat → ConfComposable
  | 0 => s
  | k + 1 =>
    addTimes (addParticipant s (Except.ok ()) "sip:peer@example.com" none).state k

/-- Whether each of `k` successive `addParticipant` calls succeeds. -/
def addTimesAllOk (s : ConfComposable) : Nat → Bool
  | 0 => true
  | k + 1 =>
    (addParticipant s (Except.ok ()) "sip:peer@example.com" none).result.isOk &&
    addTimesAllOk (addParticipant s (Except.ok ()) "sip:peer@example.com" none).state k

/-- One full conference lifecycle: a successful `createConference`
followed by a successful `endConference`. -/
def confCycle (s : ConfComposable) : ConfComposable :=
  (endConference
    (createConference s (Except.ok ()) { maxParticipants := none, locked := none }
      "sip:self@example.com" none).state
    (Except.ok ())).state

/-- A timer trace is a sequence of `set t` / `clear t` pairs: every started
interval is cleared exactly once, and no interval is left running. -/
def balancedOps : List TimerOp → Bool
  | [] => true
  | TimerOp.set a :: TimerOp.clear b :: rest => a == b && balancedOps rest
  | _ => false

/-- The local participant `createConference` constructs (isSelf moderator;
its fresh id is drawn from the id counter). -/
def createdLocal (s : ConfComposable) (localUri : String)
    (localDisplayName : Option String) : Participant :=
  { id := s.nextId + 1, uri := localUri, displayName := localDisplayName
    state := ParticipantState.Connected, isMuted := false, isOnHold := false
    isModerator := true, isSelf := true }

/-- The conference object `createConference` installs (local participant
already inserted) before awaiting the remote creation call. -/
def createdConfBase (s : ConfComposable) (options : ConferenceOptions)
    (localUri : String) (localDisplayName : Option String) : ConferenceData :=
  { id := s.nextId
    state := ConferenceState.Creating
    uri := none
    participants := [(s.nextId + 1, createdLocal s localUri localDisplayName)]
    isLocked := orFalse options.locked
    isRecording := false
    maxParticipants := orDefaultNat options.maxParticipants DEFAULT_MAX_PARTICIPANTS
    localParticipant := some (createdLocal s localUri localDisplayName)
    startedAt := false
    endedAt := false }

/-- The participant record `addParticipant` inserts optimistically
(state `Connecting`) before the remote invite resolves. -/
def addedConnecting (s : ConfComposable) (uri : String) (dn : Option String) :
    Participant :=
  { id := s.nextId, uri := uri, displayName := dn
    state := ParticipantState.Connecting, isMuted := false, isOnHold := false
    isModerator := false, isSelf := false }

/-- The same participant after the invite is confirmed (state `Connected`). -/
def addedConnected (s : ConfComposable) (uri : String) (dn : Option String) :
    Participant :=
  { id := s.nextId, uri := uri, displayName := dn
    state := ParticipantState.Connected, isMuted := false, isOnHold := false
    isModerator := false, isSelf := false }

/-- The conference object a successful `joinConference` leaves installed:
note the empty participants map and the absent local participant. -/
def joinedConf (s : ConfComposable) (conferenceUri : String)
    (options : ConferenceOptions) : ConferenceData :=
  { id := s.nextId
    state := ConferenceState.Active
    uri := some conferenceUri
    participants := []
    isLocked := false
    isRecording := false
    maxParticipants := orDefaultNat options.maxParticipants DEFAULT_MAX_PARTICIPANTS
    localParticipant := none
    startedAt := true
    endedAt := false }

/-- Demo local participant, for concrete witnesses. -/
def demoSelf : Participant :=
  { id := 1, uri := "sip:self@x", displayName := none
    state := ParticipantState.Connected, isMuted := false, isOnHold := false
    isModerator := true, isSelf := true }

/-- Demo remote participant that is already muted. -/
def demoPeerMuted : Participant :=
  { id := 2, uri := "sip:peer@x", displayName := none
    state := ParticipantState.Connected, isMuted := true, isOnHold := false
    isModerator := false, isSelf := false }

/-- Demo remote participant that is not muted. -/
def demoPeerUnmuted : Participant :=
  { id := 3, uri := "sip:peer2@x", displayName := none
    state := ParticipantState.Connected, isMuted := false, isOnHold := false
    isModerator := false, isSelf := false }

/-- Demo active three-participant conference. -/
def demoConf : ConferenceData :=
  { id := 0, state := ConferenceState.Active, uri := none
    participants := [(1, demoSelf), (2, demoPeerMuted), (3, demoPeerUnmuted)]
    isLocked := false, isRecording := false, maxParticipants := 10
    localParticipant := some demoSelf, startedAt := true, endedAt := false }

/-- Demo composable state holding `demoConf` with a running poll interval. -/
def demoState : ConfComposable :=
  { conference := some demoConf, hasClient := true, audioLevelInterval := some 0
    nextId := 4, nextTimerId := 1, timerOps := [TimerOp.set 0]
    clearScheduledCount := 0 }

/-- `demoState` with the conference locked. -/
def demoLockedState : ConfComposable :=
  { demoState with conference := some { demoConf with isLocked := true } }

/-- Demo event listener whose callback always throws. -/
def demoThrowingListener : ConfListener :=
  { ident := 7, run := fun _ => Except.error "boom" }

/-- Demo event listener whose callback always succeeds. -/
def demoOkListener : ConfListener :=
  { ident := 8, run := fun _ => Except.ok () }

end DailVue

namespace DailVue

/-- C5: for every conference with `isLocked = true`, `addParticipant` is
rejected with a "Conference is locked" error and the composable state —
in particular the participants mapping — is left completely unchanged,
with no event emitted. -/
theorem claim_C5_locked_addParticipant_rejected :
    ∀ (s : ConfComposable) (c : ConferenceData) (remote : Except String Unit)
      (uri : String) (displayName : Option String),
      s.conference = some c → c.isLocked = true →
      addParticipant s remote uri displayName =
        { result := Except.error "Conference is locked", state := s, events := [] } := by
  intro s c remote uri displayName hc hl
  simp [addParticipant, hc, hl]

theorem claim_C5_witness :
    addParticipant demoLockedState (Except.ok ()) "sip:a@x" none =
      { result := Except.error "Conference is locked", state := demoLockedState
        events := [] } :=
  claim_C5_locked_addParticipant_rejected demoLockedState
    { demoConf with isLocked := true } (Except.ok ()) "sip:a@x" none rfl rfl

/-- C6: `muteParticipant` on an already-muted participant, `lockConference`
on an already-locked conference, and `stopRecording` when not recording
each return successfully, emit no event, and leave the state unchanged. -/
theorem claim_C6_idempotent_noops :
    (∀ (s : ConfComposable) (c : ConferenceData) (remote : Except String Unit)
       (pid : Nat) (p : Participant),
       s.conference = some c → mapGet c.participants pid = some p →
       p.isMuted = true →
       muteParticipant s remote pid =
         { result := Except.ok (), state := s, events := [] }) ∧
    (∀ (s : ConfComposable) (c : ConferenceData),
       s.conference = some c → c.isLocked = true →
       lockConference s = { result := Except.ok (), state := s, events := [] }) ∧
    (∀ (s : ConfComposable) (c : ConferenceData) (remote : Except String Unit),
       s.conference = some c → c.isRecording = false →
       stopRecording s remote =
         { result := Except.ok (), state := s, events := [] }) := by
  refine ⟨?_, ?_, ?_⟩
  · intro s c remote pid p hc hget hmuted
    simp [muteParticipant, hc, hget, hmuted]
  · intro s c hc hl
    simp [lockConference, hc, hl]
  · intro s c remote hc hr
    simp [stopRecording, hc, hr]

theorem claim_C6_witness :
    muteParticipant demoState (Except.ok ()) 2 =
      { result := Except.ok (), state := demoState, events := [] } ∧
    lockConference demoLockedState =
      { result := Except.ok (), state := demoLockedState, events := [] } ∧
    stopRecording demoState (Except.ok ()) =
      { result := Except.ok (), state := demoState, events := [] } :=
  ⟨claim_C6_idempotent_noops.1 demoState demoConf (Except.ok ()) 2 demoPeerMuted
      rfl (by decide) rfl,
   claim_C6_idempotent_noops.2.1 demoLockedState { demoConf with isLocked := true }
      rfl rfl,
   claim_C6_idempotent_noops.2.2 demoState demoConf (Except.ok ()) rfl rfl⟩

/-- C7: `emitConferenceEvent` invokes every registered listener in
registration order — a listener whose callback throws is caught and
logged, and all later listeners are still invoked exactly as they would
have been — and the emit itself always returns normally (its type carries
no exception). -/
theorem claim_C7_emit_delivers_to_all :
    (∀ (ls : List ConfListener) (e : ConferenceEvent),
       (emitConferenceEvent ls e).map Prod.fst = ls.map ConfListener.ident) ∧
    (∀ (pre post : List ConfListener) (l : ConfListener) (e : ConferenceEvent)
       (msg : String),
       l.run e = Except.error msg →
       emitConferenceEvent (pre ++ l :: post) e =
         emitConferenceEvent pre e ++
           (l.ident, some msg) :: emitConferenceEvent post e) := by
  constructor
  · intro ls e
    induction ls with
    | nil => rfl
    | cons l rest ih =>
      cases h : l.run e <;> simp [emitConferenceEvent, h, ih]
  · intro pre post l e msg hthrow
    induction pre with
    | nil => simp [emitConferenceEvent, hthrow]
    | cons q rest ih =>
      cases h : q.run e <;> simp [emitConferenceEvent, h, ih]

theorem claim_C7_witness :
    emitConferenceEvent [demoOkListener, demoThrowingListener, demoOkListener]
        (ConferenceEvent.locked 0) =
      emitConferenceEvent [demoOkListener] (ConferenceEvent.locked 0) ++
        (7, some "boom") ::
          emitConferenceEvent [demoOkListener] (ConferenceEvent.locked 0) :=
  claim_C7_emit_delivers_to_all.2 [demoOkListener] [demoOkListener]
    demoThrowingListener (ConferenceEvent.locked 0) "boom" rfl

/-- C8: the shared-bus ownership count is reference counted: every
`useSipClient` attachment increments the bus's count, every cleanup of an
attached owner decrements it, and the diagnostic warning is logged exactly
when an attachment happens while at least one owner is already attached. -/
theorem claim_C8_bus_refcount :
    (∀ entry : Option Nat, busCount (attachToBus entry).1 = busCount entry + 1) ∧
    (∀ entry : Option Nat, (attachToBus entry).2 = true ↔ 0 < busCount entry) ∧
    (∀ entry : Option Nat, 0 < busCount entry →
       busCount (cleanupBus entry) = busCount entry - 1) := by
  refine ⟨?_, ?_, ?_⟩
  · intro entry; cases entry <;> simp [attachToBus, busCount]
  · intro entry; cases entry <;> simp [attachToBus, busCount]
  · intro entry h
    cases entry with
    | none => simp [busCount] at h
    | some n =>
      simp only [busCount, Option.getD_some] at h ⊢
      by_cases h1 : n ≤ 1
      · have h2 : n = 1 := by omega
        subst h2
        simp [cleanupBus, busCount]
      · simp [cleanupBus, h1, busCount]

theorem claim_C8_witness :
    busCount (attachToBus (some 2)).1 = 3 ∧
    (attachToBus (some 2)).2 = true ∧
    busCount (cleanupBus (some 2)) = 1 ∧
    busCount (cleanupBus (some 1)) = 0 :=
  ⟨claim_C8_bus_refcount.1 (some 2),
   (claim_C8_bus_refcount.2.1 (some 2)).mpr (by decide),
   claim_C8_bus_refcount.2.2 (some 2) (by decide),
   claim_C8_bus_refcount.2.2 (some 1) (by decide)⟩

/-- C9: when the remote mute (resp. unmute) call fails for a non-self
participant, `muteParticipant` (resp. `unmuteParticipant`) re-throws the
error, the composable state — in particular the participant's `isMuted`
flag — is unchanged, and no `participant:updated` event is emitted. -/
theorem claim_C9_mute_remote_failure :
    (∀ (s : ConfComposable) (c : ConferenceData) (pid : Nat) (p : Participant)
       (err : String),
       s.conference = some c → mapGet c.participants pid = some p →
       p.isSelf = false → p.isMuted = false → s.hasClient = true →
       muteParticipant s (Except.error err) pid =
         { result := Except.error err, state := s, events := [] }) ∧
    (∀ (s : ConfComposable) (c : ConferenceData) (pid : Nat) (p : Participant)
       (err : String),
       s.conference = some c → mapGet c.participants pid = some p →
       p.isSelf = false → p.isMuted = true → s.hasClient = true →
       unmuteParticipant s (Except.error err) pid =
         { result := Except.error err, state := s, events := [] }) := by
  constructor <;>
    (intro s c pid p err hc hget hself hmuted hclient
     simp [muteParticipant, unmuteParticipant, hc, hget, hmuted, hclient])

theorem claim_C9_witness :
    muteParticipant demoState (Except.error "network down") 3 =
      { result := Except.error "network down", state := demoState, events := [] } ∧
    unmuteParticipant demoState (Except.error "network down") 2 =
      { result := Except.error "network down", state := demoState, events := [] } :=
  ⟨claim_C9_mute_remote_failure.1 demoState demoConf 3 demoPeerUnmuted
      "network down" rfl (by decide) rfl rfl rfl,
   claim_C9_mute_remote_failure.2 demoState demoConf 2 demoPeerMuted
      "network down" rfl (by decide) rfl rfl rfl⟩

/-- C10: `abortableSleep(ms, signal)` rejects with a `DOMException` named
`AbortError` when the signal is aborted before or during the wait
(clearing the pending timer in the during-wait case) and resolves after
`ms` milliseconds otherwise; `throwIfAborted(signal)` throws the abort
error iff the signal exists and is aborted. -/
theorem claim_C10_abort_semantics :
    (∀ (ms : Nat) (signal : Option SignalFate),
       signal = some SignalFate.abortedAtStart ∨
         signal = some SignalFate.abortsDuringWait →
       (abortableSleep ms signal).result =
         Except.error (createAbortError "Operation aborted") ∧
       (createAbortError "Operation aborted").name = "AbortError" ∧
       (abortableSleep ms signal).resolvedAfter = none) ∧
    (∀ ms : Nat,
       (abortableSleep ms (some SignalFate.abortsDuringWait)).timerCleared = true) ∧
    (∀ (ms : Nat) (signal : Option SignalFate),
       signal = none ∨ signal = some SignalFate.neverAborts →
       (abortableSleep ms signal).result = Except.ok () ∧
       (abortableSleep ms signal).resolvedAfter = some ms ∧
       (abortableSleep ms signal).timerCleared = false) ∧
    (∀ signal : Option Bool,
       throwIfAborted signal =
           Except.error (createAbortError "Operation aborted") ↔
         signal = some true) := by
  refine ⟨?_, ?_, ?_, ?_⟩
  · intro ms signal h
    rcases h with h | h <;> subst h <;> simp [abortableSleep, createAbortError]
  · intro ms; rfl
  · intro ms signal h
    rcases h with h | h <;> subst h <;> simp [abortableSleep]
  · intro signal
    match signal with
    | none => simp [throwIfAborted]
    | some true => simp [throwIfAborted]
    | some false => simp [throwIfAborted]

theorem claim_C10_witness :
    (abortableSleep 5 (some SignalFate.abortedAtStart)).result =
      Except.error (createAbortError "Operation aborted") ∧
    (abortableSleep 5 (some SignalFate.abortsDuringWait)).timerCleared = true ∧
    (abortableSleep 5 none).resolvedAfter = some 5 ∧
    (throwIfAborted (some true) =
      Except.error (createAbortError "Operation aborted")) :=
  ⟨(claim_C10_abort_semantics.1 5 (some SignalFate.abortedAtStart) (Or.inl rfl)).1,
   claim_C10_abort_semantics.2.1 5,
   (claim_C10_abort_semantics.2.2.1 5 none (Or.inl rfl)).2.1,
   (claim_C10_abort_semantics.2.2.2 (some true)).mpr rfl⟩

end DailVue

namespace DailVue

theorem keysBelow_mono {m : List (Nat × Participant)} {n n2 : Nat}
    (h : keysBelow m n) (hle : n ≤ n2) : keysBelow m n2 :=
  fun k hk => lt_of_lt_of_le (h k hk) hle

theorem keysBelow_append {m : List (Nat × Participant)} {k : Nat}
    {v : Participant} {n : Nat} (h : keysBelow m n) (hk : k < n) :
    keysBelow (m ++ [(k, v)]) n := by
  intro x hx
  rw [List.map_append, List.mem_append] at hx
  rcases hx with hx | hx
  · exact h x hx
  · simp only [List.map_cons, List.map_nil, List.mem_singleton] at hx
    subst hx
    exact hk

theorem mapSet_fresh {m : List (Nat × Participant)} {k : Nat} {v : Participant}
    (h : ∀ x ∈ m.map Prod.fst, x ≠ k) : mapSet m k v = m ++ [(k, v)] := by
  induction m with
  | nil => rfl
  | cons q rest ih =>
    have hq : q.1 ≠ k := h q.1 (by simp)
    simp only [mapSet, hq, if_false, List.cons_append, List.cons.injEq, true_and]
    exact ih fun x hx => h x (by simp [hx])

theorem mapSet_append_of_fresh {m : List (Nat × Participant)} {k : Nat}
    {v w : Participant} (h : ∀ x ∈ m.map Prod.fst, x ≠ k) :
    mapSet (m ++ [(k, v)]) k w = m ++ [(k, w)] := by
  induction m with
  | nil => simp [mapSet]
  | cons q rest ih =>
    have hq : q.1 ≠ k := h q.1 (by simp)
    simp only [List.cons_append, mapSet, hq, if_false, List.cons.injEq, true_and]
    exact ih fun x hx => h x (by simp [hx])

theorem listSelfCount_append {m : List (Nat × Participant)} {k : Nat}
    {v : Participant} :
    listSelfCount (m ++ [(k, v)]) =
      listSelfCount m + (if v.isSelf then 1 else 0) := by
  by_cases hv : v.isSelf <;>
    simp [listSelfCount, List.filter_append, hv]

theorem listSelfCount_mapSet_of_get {m : List (Nat × Participant)} {k : Nat}
    {p : Participant} (v : Participant) (hget : mapGet m k = some p)
    (hself : v.isSelf = p.isSelf) :
    listSelfCount (mapSet m k v) = listSelfCount m := by
  induction m with
  | nil => simp [mapGet] at hget
  | cons q rest ih =>
    by_cases hq : q.1 = k
    · simp only [mapGet, hq, if_true, Option.some.injEq] at hget
      rw [← hget] at hself
      simp only [mapSet, hq, if_true, listSelfCount, List.filter_cons, hself]
      by_cases h2 : q.2.isSelf <;> simp [h2]
    · simp only [mapGet, hq, if_false] at hget
      have ih2 := ih hget
      simp only [listSelfCount] at ih2
      simp only [mapSet, hq, if_false, listSelfCount, List.filter_cons]
      by_cases h2 : q.2.isSelf <;> simp [h2, ih2]

theorem listSelfCount_mapDelete_of_get {m : List (Nat × Participant)} {k : Nat}
    (p : Participant) (hget : mapGet m k = some p) (hp : p.isSelf = false) :
    listSelfCount (mapDelete m k) = listSelfCount m := by
  induction m with
  | nil => simp [mapGet] at hget
  | cons q rest ih =>
    by_cases hq : q.1 = k
    · simp only [mapGet, hq, if_true, Option.some.injEq] at hget
      rw [← hget] at hp
      simp [mapDelete, hq, listSelfCount, List.filter_cons, hp]
    · simp only [mapGet, hq, if_false] at hget
      have ih2 := ih hget
      simp only [listSelfCount] at ih2
      simp only [mapDelete, hq, if_false, listSelfCount, List.filter_cons]
      by_cases h2 : q.2.isSelf <;> simp [h2, ih2]

theorem keysBelow_mapSet {m : List (Nat × Participant)} {k : Nat}
    {v : Participant} {n : Nat} (h : keysBelow m n) (hk : k < n) :
    keysBelow (mapSet m k v) n := by
  induction m with
  | nil =>
    intro x hx
    simp only [mapSet, List.map_cons, List.map_nil, List.mem_singleton] at hx
    subst hx
    exact hk
  | cons q rest ih =>
    by_cases hq : q.1 = k
    · simp only [mapSet, hq, if_true]
      intro x hx
      rcases List.mem_cons.mp hx with hx | hx
      · subst hx; exact hk
      · exact h x (by simp [hx])
    · simp only [mapSet, hq, if_false]
      intro x hx
      rcases List.mem_cons.mp hx with hx | hx
      · subst hx; exact h q.1 (by simp)
      · exact ih (fun y hy => h y (by simp [hy])) x hx

theorem keysBelow_mapDelete {m : List (Nat × Participant)} {k : Nat} {n : Nat}
    (h : keysBelow m n) : keysBelow (mapDelete m k) n := by
  induction m with
  | nil => intro x hx; simp [mapDelete] at hx
  | cons q rest ih =>
    by_cases hq : q.1 = k
    · simp only [mapDelete, hq, if_true]
      exact fun x hx => h x (by simp [hx])
    · simp only [mapDelete, hq, if_false]
      intro x hx
      rcases List.mem_cons.mp hx with hx | hx
      · subst hx; exact h q.1 (by simp)
      · exact ih (fun y hy => h y (by simp [hy])) x hx

theorem mapGet_mapSet_self {m : List (Nat × Participant)} {k : Nat}
    {v : Participant} : mapGet (mapSet m k v) k = some v := by
  induction m with
  | nil => simp [mapSet, mapGet]
  | cons q rest ih =>
    by_cases hq : q.1 = k
    · simp [mapSet, hq, mapGet]
    · simp [mapSet, hq, mapGet, ih]

theorem startMon_conference (s : ConfComposable) :
    (startAudioLevelMonitoring s).conference = s.conference := by
  unfold startAudioLevelMonitoring
  cases s.audioLevelInterval <;> rfl

theorem startMon_nextId (s : ConfComposable) :
    (startAudioLevelMonitoring s).nextId = s.nextId := by
  unfold startAudioLevelMonitoring
  cases s.audioLevelInterval <;> rfl

theorem startMon_hasClient (s : ConfComposable) :
    (startAudioLevelMonitoring s).hasClient = s.hasClient := by
  unfold startAudioLevelMonitoring
  cases s.audioLevelInterval <;> rfl

theorem stopMon_conference (s : ConfComposable) :
    (stopAudioLevelMonitoring s).conference = s.conference := by
  unfold stopAudioLevelMonitoring
  cases s.audioLevelInterval <;> rfl

theorem stopMon_nextId (s : ConfComposable) :
    (stopAudioLevelMonitoring s).nextId = s.nextId := by
  unfold stopAudioLevelMonitoring
  cases s.audioLevelInterval <;> rfl

theorem updateState_eq_of_some {s : ConfComposable} {c : ConferenceData}
    (ns : ConferenceState) (hc : s.conference = some c) :
    updateConferenceState s ns =
      ({ s with conference := some { c with
          state := ns
          endedAt := if ns = ConferenceState.Ended then true else c.endedAt } },
       [ConferenceEvent.stateChanged c.id ns]) := by
  unfold updateConferenceState
  rw [hc]

end DailVue

namespace DailVue

theorem isSome_of_isActive {s : ConfComposable} (h : isActiveOf s = true) :
    s.conference.isSome = true := by
  unfold isActiveOf stateOf at h
  cases hc : s.conference with
  | none => rw [hc] at h; simp at h
  | some c => simp [hc]

theorem createConference_ok_eq (s : ConfComposable) (options : ConferenceOptions)
    (lu : String) (ld : Option String) (h1 : s.hasClient = true)
    (h2 : isActiveOf s = false) :
    createConference s (Except.ok ()) options lu ld =
      { result := Except.ok s.nextId
        state := startAudioLevelMonitoring
          { s with
            conference := some { createdConfBase s options lu ld with
              state := ConferenceState.Active, startedAt := true }
            nextId := s.nextId + 2 }
        events := [ConferenceEvent.created s.nextId ConferenceState.Active] } := by
  unfold createConference
  simp [h1, h2, createdConfBase, createdLocal, mapSet]

theorem createConference_err_eq (s : ConfComposable) (options : ConferenceOptions)
    (lu : String) (ld : Option String) (err : String) (h1 : s.hasClient = true)
    (h2 : isActiveOf s = false) :
    createConference s (Except.error err) options lu ld =
      { result := Except.error err
        state := { s with
          conference := some { createdConfBase s options lu ld with
            state := ConferenceState.Failed }
          nextId := s.nextId + 2 }
        events := [ConferenceEvent.stateChanged s.nextId ConferenceState.Failed] } := by
  unfold createConference
  simp [h1, h2, createdConfBase, createdLocal, mapSet, updateConferenceState]

end DailVue

namespace DailVue

theorem mem_fst_of_mapGet {m : List (Nat × Participant)} {k : Nat}
    {p : Participant} (h : mapGet m k = some p) : k ∈ m.map Prod.fst := by
  induction m with
  | nil => simp [mapGet] at h
  | cons q rest ih =>
    by_cases hq : q.1 = k
    · rw [List.map_cons, hq]
      exact List.mem_cons_self _ _
    · simp only [mapGet, hq, if_false] at h
      exact List.mem_cons_of_mem _ (ih h)

theorem addParticipant_full_eq (s : ConfComposable) (c : ConferenceData)
    (remote : Except String Unit) (uri : String) (dn : Option String)
    (hc : s.conference = some c) (hl : c.isLocked = false)
    (hcap : orDefaultNat (some c.maxParticipants) DEFAULT_MAX_PARTICIPANTS ≤
      c.participants.length) :
    addParticipant s remote uri dn =
      { result := Except.error "Conference is full", state := s, events := [] } := by
  unfold addParticipant
  rw [hc]
  simp [hl, hcap]

theorem addParticipant_insert_eq (s : ConfComposable) (c : ConferenceData)
    (remote : Except String Unit) (uri : String) (dn : Option String)
    (hc : s.conference = some c) (hl : c.isLocked = false)
    (hcap : ¬ orDefaultNat (some c.maxParticipants) DEFAULT_MAX_PARTICIPANTS ≤
      c.participants.length)
    (hkb : ∀ x ∈ c.participants.map Prod.fst, x ≠ s.nextId) :
    addParticipant s remote uri dn =
      match (if s.hasClient then remote else Except.ok ()) with
      | Except.error e =>
        { result := Except.error e
          state := { s with
            conference := some { c with participants :=
              c.participants ++ [(s.nextId, addedConnecting s uri dn)] }
            nextId := s.nextId + 1 }
          events := [] }
      | Except.ok _ =>
        { result := Except.ok s.nextId
          state := { s with
            conference := some { c with participants :=
              c.participants ++ [(s.nextId, addedConnected s uri dn)] }
            nextId := s.nextId + 1 }
          events :=
            [ConferenceEvent.participantJoined c.id (addedConnected s uri dn)] } := by
  unfold addParticipant
  rw [hc]
  simp only [hl, Bool.false_eq_true, if_false, hcap]
  rw [mapSet_fresh hkb]
  cases hrem : (if s.hasClient then remote else Except.ok ()) with
  | error e => simp [addedConnecting]
  | ok u =>
    rw [mapSet_append_of_fresh hkb]
    simp [addedConnecting, addedConnected]

theorem joinConference_ok_eq (s : ConfComposable) (conferenceUri : String)
    (options : ConferenceOptions) (h1 : s.hasClient = true) :
    joinConference s (Except.ok ()) conferenceUri options =
      { result := Except.ok ()
        state := startAudioLevelMonitoring
          { s with
            conference := some (joinedConf s conferenceUri options)
            nextId := s.nextId + 1 }
        events := [] } := by
  unfold joinConference
  simp [h1, joinedConf]

theorem confInv_startMon {t : ConfComposable} (h : ConfInv t) :
    ConfInv (startAudioLevelMonitoring t) := by
  intro c hc
  rw [startMon_conference] at hc
  rw [startMon_nextId]
  exact h c hc

theorem confInv_stopMon {t : ConfComposable} (h : ConfInv t) :
    ConfInv (stopAudioLevelMonitoring t) := by
  intro c hc
  rw [stopMon_conference] at hc
  rw [stopMon_nextId]
  exact h c hc

end DailVue

namespace DailVue

theorem confInv_create (s : ConfComposable) (remote : Except String Unit)
    (options : ConferenceOptions) (lu : String) (ld : Option String)
    (h : ConfInv s) : ConfInv (createConference s remote options lu ld).state := by
  by_cases h1 : s.hasClient = true
  · by_cases h2 : isActiveOf s = true
    · have hsome := isSome_of_isActive h2
      have heq : (createConference s remote options lu ld).state = s := by
        unfold createConference
        simp [h1, h2, hsome]
      rw [heq]
      exact h
    · have h2f : isActiveOf s = false := by revert h2; cases isActiveOf s <;> simp
      cases remote with
      | error e =>
        rw [createConference_err_eq s options lu ld e h1 h2f]
        intro c2 hc2
        simp only [Option.some.injEq] at hc2
        cases hc2
        constructor
        · intro x hx
          simp [createdConfBase, createdLocal] at hx
          show x < s.nextId + 2
          omega
        · simp [createdConfBase, createdLocal, listSelfCount]
      | ok u =>
        rw [createConference_ok_eq s options lu ld h1 h2f]
        apply confInv_startMon
        intro c2 hc2
        simp only [Option.some.injEq] at hc2
        cases hc2
        constructor
        · intro x hx
          simp [createdConfBase, createdLocal] at hx
          show x < s.nextId + 2
          omega
        · simp [createdConfBase, createdLocal, listSelfCount]
  · have h1f : s.hasClient = false := by revert h1; cases s.hasClient <;> simp
    have heq : (createConference s remote options lu ld).state = s := by
      unfold createConference
      simp [h1f]
    rw [heq]
    exact h

theorem confInv_add (s : ConfComposable) (remote : Except String Unit)
    (uri : String) (dn : Option String) (h : ConfInv s) :
    ConfInv (addParticipant s remote uri dn).state := by
  cases hc : s.conference with
  | none =>
    have heq : (addParticipant s remote uri dn).state = s := by
      unfold addParticipant
      rw [hc]
    rw [heq]; exact h
  | some c =>
    obtain ⟨hkb, hsc⟩ := h c hc
    by_cases hl : c.isLocked = true
    · have heq : (addParticipant s remote uri dn).state = s := by
        unfold addParticipant
        rw [hc]
        simp [hl]
      rw [heq]; exact h
    · have hlf : c.isLocked = false := by revert hl; cases c.isLocked <;> simp
      by_cases hcap : orDefaultNat (some c.maxParticipants)
          DEFAULT_MAX_PARTICIPANTS ≤ c.participants.length
      · rw [addParticipant_full_eq s c remote uri dn hc hlf hcap]
        exact h
      · have hfresh : ∀ x ∈ c.participants.map Prod.fst, x ≠ s.nextId :=
          fun x hx => Nat.ne_of_lt (hkb x hx)
        rw [addParticipant_insert_eq s c remote uri dn hc hlf hcap hfresh]
        cases hrem : (if s.hasClient then remote else Except.ok ()) with
        | error e =>
          intro c2 hc2
          simp only [Option.some.injEq] at hc2
          cases hc2
          constructor
          · exact keysBelow_append (keysBelow_mono hkb (Nat.le_succ _))
              (Nat.lt_succ_self _)
          · rw [listSelfCount_append]
            simp [addedConnecting, hsc]
        | ok u =>
          intro c2 hc2
          simp only [Option.some.injEq] at hc2
          cases hc2
          constructor
          · exact keysBelow_append (keysBelow_mono hkb (Nat.le_succ _))
              (Nat.lt_succ_self _)
          · rw [listSelfCount_append]
            simp [addedConnected, hsc]

theorem confInv_remove (s : ConfComposable) (remote : Except String Unit)
    (pid : Nat) (reason : Option String) (h : ConfInv s) :
    ConfInv (removeParticipant s remote pid reason).state := by
  cases hc : s.conference with
  | none =>
    have heq : (removeParticipant s remote pid reason).state = s := by
      unfold removeParticipant
      rw [hc]
    rw [heq]; exact h
  | some c =>
    obtain ⟨hkb, hsc⟩ := h c hc
    cases hget : mapGet c.participants pid with
    | none =>
      have heq : (removeParticipant s remote pid reason).state = s := by
        unfold removeParticipant
        rw [hc]
        simp [hget]
      rw [heq]; exact h
    | some p =>
      by_cases hself : p.isSelf = true
      · have heq : (removeParticipant s remote pid reason).state = s := by
          unfold removeParticipant
          rw [hc]
          simp [hget, hself]
        rw [heq]; exact h
      · have hselff : p.isSelf = false := by revert hself; cases p.isSelf <;> simp
        have hpid : pid < s.nextId := hkb pid (mem_fst_of_mapGet hget)
        cases hrem : (if s.hasClient then remote else Except.ok ()) with
        | error e =>
          have heq : (removeParticipant s remote pid reason).state =
              { s with conference := some { c with participants :=
                  (mapSet c.participants pid
                    { p with state := ParticipantState.Disconnected }) } } := by
            unfold removeParticipant
            rw [hc]
            simp [hget, hselff, hrem]
          rw [heq]
          intro c2 hc2
          simp only [Option.some.injEq] at hc2
          cases hc2
          exact ⟨keysBelow_mapSet hkb hpid,
            (listSelfCount_mapSet_of_get
              { p with state := ParticipantState.Disconnected } hget rfl).trans hsc⟩
        | ok u =>
          have heq : (removeParticipant s remote pid reason).state =
              { s with conference := some { c with participants :=
                  (mapDelete (mapSet c.participants pid
                    { p with state := ParticipantState.Disconnected }) pid) } } := by
            unfold removeParticipant
            rw [hc]
            simp [hget, hselff, hrem]
          rw [heq]
          intro c2 hc2
          simp only [Option.some.injEq] at hc2
          cases hc2
          constructor
          · exact keysBelow_mapDelete (keysBelow_mapSet hkb hpid)
          · exact (listSelfCount_mapDelete_of_get
                { p with state := ParticipantState.Disconnected }
                mapGet_mapSet_self hselff).trans
              ((listSelfCount_mapSet_of_get
                { p with state := ParticipantState.Disconnected } hget rfl).trans hsc)

theorem confInv_mute (s : ConfComposable) (remote : Except String Unit)
    (pid : Nat) (h : ConfInv s) : ConfInv (muteParticipant s remote pid).state := by
  cases hc : s.conference with
  | none =>
    have heq : (muteParticipant s remote pid).state = s := by
      unfold muteParticipant
      rw [hc]
    rw [heq]; exact h
  | some c =>
    obtain ⟨hkb, hsc⟩ := h c hc
    cases hget : mapGet c.participants pid with
    | none =>
      have heq : (muteParticipant s remote pid).state = s := by
        unfold muteParticipant
        rw [hc]
        simp [hget]
      rw [heq]; exact h
    | some p =>
      by_cases hm : p.isMuted = true
      · have heq : (muteParticipant s remote pid).state = s := by
          unfold muteParticipant
          rw [hc]
          simp [hget, hm]
        rw [heq]; exact h
      · have hmf : p.isMuted = false := by revert hm; cases p.isMuted <;> simp
        cases hrem : (if s.hasClient then remote else Except.ok ()) with
        | error e =>
          have heq : (muteParticipant s remote pid).state = s := by
            unfold muteParticipant
            rw [hc]
            simp [hget, hmf, hrem]
          rw [heq]; exact h
        | ok u =>
          have heq : (muteParticipant s remote pid).state =
              { s with conference := some { c with participants :=
                  (mapSet c.participants pid { p with isMuted := true }) } } := by
            unfold muteParticipant
            rw [hc]
            simp [hget, hmf, hrem]
          rw [heq]
          intro c2 hc2
          simp only [Option.some.injEq] at hc2
          cases hc2
          exact ⟨keysBelow_mapSet hkb (hkb pid (mem_fst_of_mapGet hget)),
            (listSelfCount_mapSet_of_get
              { p with isMuted := true } hget rfl).trans hsc⟩

theorem confInv_unmute (s : ConfComposable) (remote : Except String Unit)
    (pid : Nat) (h : ConfInv s) :
    ConfInv (unmuteParticipant s remote pid).state := by
  cases hc : s.conference with
  | none =>
    have heq : (unmuteParticipant s remote pid).state = s := by
      unfold unmuteParticipant
      rw [hc]
    rw [heq]; exact h
  | some c =>
    obtain ⟨hkb, hsc⟩ := h c hc
    cases hget : mapGet c.participants pid with
    | none =>
      have heq : (unmuteParticipant s remote pid).state = s := by
        unfold unmuteParticipant
        rw [hc]
        simp [hget]
      rw [heq]; exact h
    | some p =>
      by_cases hm : p.isMuted = false
      · have heq : (unmuteParticipant s remote pid).state = s := by
          unfold unmuteParticipant
          rw [hc]
          simp [hget, hm]
        rw [heq]; exact h
      · have hmt : p.isMuted = true := by revert hm; cases p.isMuted <;> simp
        cases hrem : (if s.hasClient then remote else Except.ok ()) with
        | error e =>
          have heq : (unmuteParticipant s remote pid).state = s := by
            unfold unmuteParticipant
            rw [hc]
            simp [hget, hmt, hrem]
          rw [heq]; exact h
        | ok u =>
          have heq : (unmuteParticipant s remote pid).state =
              { s with conference := some { c with participants :=
                  (mapSet c.participants pid { p with isMuted := false }) } } := by
            unfold unmuteParticipant
            rw [hc]
            simp [hget, hmt, hrem]
          rw [heq]
          intro c2 hc2
          simp only [Option.some.injEq] at hc2
          cases hc2
          exact ⟨keysBelow_mapSet hkb (hkb pid (mem_fst_of_mapGet hget)),
            (listSelfCount_mapSet_of_get
              { p with isMuted := false } hget rfl).trans hsc⟩

end DailVue

namespace DailVue

theorem confInv_end (s : ConfComposable) (remote : Except String Unit)
    (h : ConfInv s) : ConfInv (endConference s remote).state := by
  cases hc : s.conference with
  | none =>
    have heq : (endConference s remote).state = s := by
      unfold endConference
      rw [hc]
    rw [heq]; exact h
  | some c =>
    obtain ⟨hkb, hsc⟩ := h c hc
    cases hrem : (if s.hasClient then remote else Except.ok ()) with
    | error e =>
      have heq : (endConference s remote).state =
          { s with conference := some { c with state := ConferenceState.Ending } } := by
        unfold endConference
        rw [hc]
        simp [updateConferenceState, hc, hrem]
      rw [heq]
      intro c2 hc2
      simp only [Option.some.injEq] at hc2
      cases hc2
      exact ⟨hkb, hsc⟩
    | ok u =>
      cases hint : s.audioLevelInterval with
      | none =>
        have heq : (endConference s remote).state =
            { s with
              conference := some { c with
                state := ConferenceState.Ended, endedAt := true }
              clearScheduledCount := s.clearScheduledCount + 1 } := by
          unfold endConference
          rw [hc]
          simp [updateConferenceState, hc, hrem, stopAudioLevelMonitoring, hint]
        rw [heq]
        intro c2 hc2
        simp only [Option.some.injEq] at hc2
        cases hc2
        exact ⟨hkb, hsc⟩
      | some t =>
        have heq : (endConference s remote).state =
            { s with
              conference := some { c with
                state := ConferenceState.Ended, endedAt := true }
              audioLevelInterval := none
              timerOps := s.timerOps ++ [TimerOp.clear t]
              clearScheduledCount := s.clearScheduledCount + 1 } := by
          unfold endConference
          rw [hc]
          simp [updateConferenceState, hc, hrem, stopAudioLevelMonitoring, hint]
        rw [heq]
        intro c2 hc2
        simp only [Option.some.injEq] at hc2
        cases hc2
        exact ⟨hkb, hsc⟩

theorem confInv_lock (s : ConfComposable) (h : ConfInv s) :
    ConfInv (lockConference s).state := by
  cases hc : s.conference with
  | none =>
    have heq : (lockConference s).state = s := by
      unfold lockConference
      rw [hc]
    rw [heq]; exact h
  | some c =>
    obtain ⟨hkb, hsc⟩ := h c hc
    by_cases hl : c.isLocked = true
    · have heq : (lockConference s).state = s := by
        unfold lockConference
        rw [hc]
        simp [hl]
      rw [heq]; exact h
    · have hlf : c.isLocked = false := by revert hl; cases c.isLocked <;> simp
      have heq : (lockConference s).state =
          { s with conference := some { c with isLocked := true } } := by
        unfold lockConference
        rw [hc]
        simp [hlf]
      rw [heq]
      intro c2 hc2
      simp only [Option.some.injEq] at hc2
      cases hc2
      exact ⟨hkb, hsc⟩

theorem confInv_unlock (s : ConfComposable) (h : ConfInv s) :
    ConfInv (unlockConference s).state := by
  cases hc : s.conference with
  | none =>
    have heq : (unlockConference s).state = s := by
      unfold unlockConference
      rw [hc]
    rw [heq]; exact h
  | some c =>
    obtain ⟨hkb, hsc⟩ := h c hc
    by_cases hl : c.isLocked = false
    · have heq : (unlockConference s).state = s := by
        unfold unlockConference
        rw [hc]
        simp [hl]
      rw [heq]; exact h
    · have hlt : c.isLocked = true := by revert hl; cases c.isLocked <;> simp
      have heq : (unlockConference s).state =
          { s with conference := some { c with isLocked := false } } := by
        unfold unlockConference
        rw [hc]
        simp [hlt]
      rw [heq]
      intro c2 hc2
      simp only [Option.some.injEq] at hc2
      cases hc2
      exact ⟨hkb, hsc⟩

theorem confInv_startRec (s : ConfComposable) (remote : Except String Unit)
    (h : ConfInv s) : ConfInv (startRecording s remote).state := by
  cases hc : s.conference with
  | none =>
    have heq : (startRecording s remote).state = s := by
      unfold startRecording
      rw [hc]
    rw [heq]; exact h
  | some c =>
    obtain ⟨hkb, hsc⟩ := h c hc
    by_cases hr : c.isRecording = true
    · have heq : (startRecording s remote).state = s := by
        unfold startRecording
        rw [hc]
        simp [hr]
      rw [heq]; exact h
    · have hrf : c.isRecording = false := by revert hr; cases c.isRecording <;> simp
      cases hrem : (if s.hasClient then remote else Except.ok ()) with
      | error e =>
        have heq : (startRecording s remote).state = s := by
          unfold startRecording
          rw [hc]
          simp [hrf, hrem]
        rw [heq]; exact h
      | ok u =>
        have heq : (startRecording s remote).state =
            { s with conference := some { c with isRecording := true } } := by
          unfold startRecording
          rw [hc]
          simp [hrf, hrem]
        rw [heq]
        intro c2 hc2
        simp only [Option.some.injEq] at hc2
        cases hc2
        exact ⟨hkb, hsc⟩

theorem confInv_stopRec (s : ConfComposable) (remote : Except String Unit)
    (h : ConfInv s) : ConfInv (stopRecording s remote).state := by
  cases hc : s.conference with
  | none =>
    have heq : (stopRecording s remote).state = s := by
      unfold stopRecording
      rw [hc]
    rw [heq]; exact h
  | some c =>
    obtain ⟨hkb, hsc⟩ := h c hc
    by_cases hr : c.isRecording = false
    · have heq : (stopRecording s remote).state = s := by
        unfold stopRecording
        rw [hc]
        simp [hr]
      rw [heq]; exact h
    · have hrt : c.isRecording = true := by revert hr; cases c.isRecording <;> simp
      cases hrem : (if s.hasClient then remote else Except.ok ()) with
      | error e =>
        have heq : (stopRecording s remote).state = s := by
          unfold stopRecording
          rw [hc]
          simp [hrt, hrem]
        rw [heq]; exact h
      | ok u =>
        have heq : (stopRecording s remote).state =
            { s with conference := some { c with isRecording := false } } := by
          unfold stopRecording
          rw [hc]
          simp [hrt, hrem]
        rw [heq]
        intro c2 hc2
        simp only [Option.some.injEq] at hc2
        cases hc2
        exact ⟨hkb, hsc⟩

theorem confInv_fireClear (s : ConfComposable) :
    ConfInv (fireScheduledClear s) := by
  intro c hc
  simp [fireScheduledClear] at hc

theorem confInv_step {s s2 : ConfComposable} (h : ConfInv s) (st : Step s s2) :
    ConfInv s2 := by
  cases st with
  | create remote options lu ld => exact confInv_create s remote options lu ld h
  | add remote uri dn => exact confInv_add s remote uri dn h
  | remove remote pid reason => exact confInv_remove s remote pid reason h
  | mute remote pid => exact confInv_mute s remote pid h
  | unmute remote pid => exact confInv_unmute s remote pid h
  | endConf remote => exact confInv_end s remote h
  | lock => exact confInv_lock s h
  | unlock => exact confInv_unlock s h
  | startRec remote => exact confInv_startRec s remote h
  | stopRec remote => exact confInv_stopRec s remote h
  | fireClear => exact confInv_fireClear s

theorem confInv_reachable {b : Bool} {s : ConfComposable}
    (h : Relation.ReflTransGen Step (initState b) s) : ConfInv s := by
  induction h with
  | refl => intro c hc; simp [initState] at hc
  | tail hsteps hstep ih => exact confInv_step ih hstep

end DailVue

namespace DailVue

/-- C3 counterexample: run `createConference` with a failing remote
creation at a concrete input; the conference ends in `Failed` and
re-throws, but one participant (the local one) remains in the
participants map, contradicting "no participant state remains". -/
theorem claim_C3_counterexample :
    (createConference (initState true) (Except.error "boom")
        { maxParticipants := some 3, locked := none } "sip:self@x" none).result =
      Except.error "boom" ∧
    stateOf (createConference (initState true) (Except.error "boom")
        { maxParticipants := some 3, locked := none } "sip:self@x" none).state =
      ConferenceState.Failed ∧
    participantCountOf (createConference (initState true) (Except.error "boom")
        { maxParticipants := some 3, locked := none } "sip:self@x" none).state =
      1 := by
  decide

/-- C3 (amended): when the remote conference-creation call fails,
`createConference` transitions the conference to `Failed`, re-throws the
underlying error, and emits the `state:changed` event — but the local
`isSelf` participant it inserted optimistically remains in the
participants map (dangling participant state is left behind, contrary to
the original claim). -/
theorem claim_C3_failed_create_keeps_local :
    ∀ (s : ConfComposable) (options : ConferenceOptions) (localUri : String)
      (localDisplayName : Option String) (err : String),
      s.hasClient = true → isActiveOf s = false →
      (createConference s (Except.error err) options localUri
        localDisplayName).result = Except.error err ∧
      (∃ c p,
        (createConference s (Except.error err) options localUri
          localDisplayName).state.conference = some c ∧
        c.state = ConferenceState.Failed ∧
        c.participants = [(s.nextId + 1, p)] ∧ p.isSelf = true ∧
        c.localParticipant = some p) ∧
      (createConference s (Except.error err) options localUri
        localDisplayName).events =
        [ConferenceEvent.stateChanged s.nextId ConferenceState.Failed] := by
  intro s options localUri localDisplayName err h1 h2
  rw [createConference_err_eq s options localUri localDisplayName err h1 h2]
  exact ⟨rfl, ⟨_, createdLocal s localUri localDisplayName,
    rfl, rfl, rfl, rfl, rfl⟩, rfl⟩

theorem claim_C3_witness :
    (createConference (initState true) (Except.error "server error")
      { maxParticipants := some 4, locked := none } "sip:self@x" none).result =
      Except.error "server error" ∧
    (∃ c p,
      (createConference (initState true) (Except.error "server error")
        { maxParticipants := some 4, locked := none } "sip:self@x"
        none).state.conference = some c ∧
      c.state = ConferenceState.Failed ∧
      c.participants = [((initState true).nextId + 1, p)] ∧ p.isSelf = true ∧
      c.localParticipant = some p) ∧
    (createConference (initState true) (Except.error "server error")
      { maxParticipants := some 4, locked := none } "sip:self@x" none).events =
      [ConferenceEvent.stateChanged (initState true).nextId
        ConferenceState.Failed] :=
  claim_C3_failed_create_keeps_local (initState true)
    { maxParticipants := some 4, locked := none } "sip:self@x" none
    "server error" rfl rfl

/-- C2 counterexample: at a concrete input, a successful `joinConference`
leaves a conference whose participants map is empty and whose
`localParticipant` is absent — so it does not contain a local participant
with `isSelf = true`, and the number of `isSelf`-flagged participants is
0, not 1. -/
theorem claim_C2_counterexample :
    (joinConference (initState true) (Except.ok ()) "sip:conf@x"
        { maxParticipants := some 5, locked := none }).result = Except.ok () ∧
    participantCountOf (joinConference (initState true) (Except.ok ())
        "sip:conf@x" { maxParticipants := some 5, locked := none }).state = 0 ∧
    ((joinConference (initState true) (Except.ok ()) "sip:conf@x"
        { maxParticipants := some 5, locked := none }).state.conference.map
      ConferenceData.localParticipant) = some none := by
  decide

/-- C2 (amended): a successful `joinConference` creates NO local
participant — the conference's participants map is empty and no
participant is flagged `isSelf`; for the `createConference`-driven
lifecycle (any sequence of conference operations other than
`joinConference`, from the fresh composable state), every reachable state
that holds a conference has exactly one participant flagged `isSelf`. -/
theorem claim_C2_join_and_self_invariant :
    (∀ (s : ConfComposable) (conferenceUri : String)
       (options : ConferenceOptions),
       s.hasClient = true →
       (joinConference s (Except.ok ()) conferenceUri options).result =
         Except.ok () ∧
       ∃ c, (joinConference s (Except.ok ()) conferenceUri
           options).state.conference = some c ∧
         c.participants = [] ∧ c.localParticipant = none ∧
         listSelfCount c.participants = 0) ∧
    (∀ (b : Bool) (s : ConfComposable),
       Relation.ReflTransGen Step (initState b) s →
       ∀ c, s.conference = some c → listSelfCount c.participants = 1) := by
  constructor
  · intro s conferenceUri options h1
    rw [joinConference_ok_eq s conferenceUri options h1]
    refine ⟨rfl, joinedConf s conferenceUri options, ?_, rfl, rfl, rfl⟩
    rw [startMon_conference]
  · intro b s hreach c hc
    exact (confInv_reachable hreach c hc).2

theorem claim_C2_witness :
    ((joinConference (initState true) (Except.ok ()) "sip:conf2@x"
        { maxParticipants := some 6, locked := none }).result = Except.ok () ∧
      ∃ c, (joinConference (initState true) (Except.ok ()) "sip:conf2@x"
          { maxParticipants := some 6, locked := none }).state.conference =
          some c ∧
        c.participants = [] ∧ c.localParticipant = none ∧
        listSelfCount c.participants = 0) ∧
    listSelfCount ({ createdConfBase (initState true)
        { maxParticipants := some 6, locked := none } "sip:self@x" none with
      state := ConferenceState.Active
      startedAt := true } : ConferenceData).participants = 1 :=
  ⟨claim_C2_join_and_self_invariant.1 (initState true) "sip:conf2@x"
      { maxParticipants := some 6, locked := none } rfl,
   claim_C2_join_and_self_invariant.2 true
      (createConference (initState true) (Except.ok ())
        { maxParticipants := some 6, locked := none } "sip:self@x" none).state
      (Relation.ReflTransGen.single
        (Step.create (initState true) (Except.ok ())
          { maxParticipants := some 6, locked := none } "sip:self@x" none))
      { createdConfBase (initState true)
          { maxParticipants := some 6, locked := none } "sip:self@x" none with
        state := ConferenceState.Active
        startedAt := true }
      (by decide)⟩

end DailVue

namespace DailVue

theorem addTimes_growth (M : Nat) (hM : M ≠ 0) :
    ∀ (k : Nat) (s : ConfComposable) (c : ConferenceData),
      s.conference = some c →
      c.isLocked = false →
      c.maxParticipants = M →
      keysBelow c.participants s.nextId →
      c.participants.length + k ≤ M →
      addTimesAllOk s k = true ∧
      ∃ c2, (addTimes s k).conference = some c2 ∧
        c2.isLocked = false ∧ c2.maxParticipants = M ∧
        c2.participants.length = c.participants.length + k ∧
        keysBelow c2.participants (addTimes s k).nextId := by
  intro k
  induction k with
  | zero =>
    intro s c hc hl hmax hkb hcap
    exact ⟨rfl, c, hc, hl, hmax, rfl, hkb⟩
  | succ k ih =>
    intro s c hc hl hmax hkb hcap
    have hcapNat : c.participants.length <
        orDefaultNat (some c.maxParticipants) DEFAULT_MAX_PARTICIPANTS := by
      rw [hmax]
      unfold orDefaultNat
      simp only [hM, if_false]
      omega
    have hnotle : ¬ orDefaultNat (some c.maxParticipants)
        DEFAULT_MAX_PARTICIPANTS ≤ c.participants.length :=
      Nat.not_le.mpr hcapNat
    have hfresh : ∀ x ∈ c.participants.map Prod.fst, x ≠ s.nextId :=
      fun x hx => Nat.ne_of_lt (hkb x hx)
    have heq := addParticipant_insert_eq s c (Except.ok ())
      "sip:peer@example.com" none hc hl hnotle hfresh
    rw [ite_self] at heq
    have hkb2 : keysBelow (c.participants ++
        [(s.nextId, addedConnected s "sip:peer@example.com" none)])
        (s.nextId + 1) :=
      keysBelow_append (keysBelow_mono hkb (Nat.le_succ _)) (Nat.lt_succ_self _)
    have hcap2 : (c.participants ++
        [(s.nextId, addedConnected s "sip:peer@example.com" none)]).length + k ≤
        M := by
      rw [List.length_append]
      simp only [List.length_singleton]
      omega
    obtain ⟨hok2, c3, hc3, hl3, hmax3, hlen3, hkb3⟩ :=
      ih { s with
            conference := some { c with participants := c.participants ++
              [(s.nextId, addedConnected s "sip:peer@example.com" none)] }
            nextId := s.nextId + 1 }
        { c with participants := c.participants ++
            [(s.nextId, addedConnected s "sip:peer@example.com" none)] }
        rfl hl hmax hkb2 hcap2
    have hstate : (addParticipant s (Except.ok ())
        "sip:peer@example.com" none).state =
        { s with
          conference := some { c with participants := c.participants ++
            [(s.nextId, addedConnected s "sip:peer@example.com" none)] }
          nextId := s.nextId + 1 } := by
      rw [heq]
    refine ⟨?_, c3, ?_, hl3, hmax3, ?_, ?_⟩
    · show ((addParticipant s (Except.ok ())
          "sip:peer@example.com" none).result.isOk &&
        addTimesAllOk (addParticipant s (Except.ok ())
          "sip:peer@example.com" none).state k) = true
      rw [hstate, hok2, Bool.and_true, heq]
      rfl
    · show (addTimes (addParticipant s (Except.ok ())
          "sip:peer@example.com" none).state k).conference = some c3
      rw [hstate]
      exact hc3
    · rw [hlen3]
      simp only [List.length_append, List.length_singleton]
      omega
    · show keysBelow c3.participants (addTimes (addParticipant s (Except.ok ())
          "sip:peer@example.com" none).state k).nextId
      rw [hstate]
      exact hkb3

end DailVue

namespace DailVue

/-- C1 counterexample: create a conference with `maxParticipants = 1`.
The claim says the first `maxParticipants` (= 1) `addParticipant` calls
succeed, but the very first one is already rejected with "Conference is
full", because `createConference` inserted the local participant into the
participants map and it counts toward capacity. -/
theorem claim_C1_counterexample :
    (createConference (initState true) (Except.ok ())
        { maxParticipants := some 1, locked := none } "sip:self@x" none).result =
      Except.ok 0 ∧
    (addParticipant (createConference (initState true) (Except.ok ())
        { maxParticipants := some 1, locked := none } "sip:self@x" none).state
      (Except.ok ()) "sip:a@x" none).result =
      Except.error "Conference is full" ∧
    participantCountOf (addParticipant (createConference (initState true)
        (Except.ok ()) { maxParticipants := some 1, locked := none }
        "sip:self@x" none).state
      (Except.ok ()) "sip:a@x" none).state = 1 := by
  decide

/-- C1 (amended): for a conference created with capacity
`maxParticipants = M ≥ 1`, the local participant already occupies one
slot, so each of the first `M − 1` `addParticipant` calls succeeds; the
participant count then equals `M`, and the next `addParticipant` call —
for any remote outcome, uri and display name — is rejected with
"Conference is full" while the state (hence the count) stays unchanged at
`M`.  `addParticipant` raises the capacity error exactly when the current
count has reached the configured maximum. -/
theorem claim_C1_capacity :
    ∀ M : Nat, 1 ≤ M →
      (createConference (initState true) (Except.ok ())
        { maxParticipants := some M, locked := none } "sip:self@x" none).result =
        Except.ok 0 ∧
      addTimesAllOk (createConference (initState true) (Except.ok ())
        { maxParticipants := some M, locked := none } "sip:self@x" none).state
        (M - 1) = true ∧
      participantCountOf (addTimes (createConference (initState true)
        (Except.ok ()) { maxParticipants := some M, locked := none }
        "sip:self@x" none).state (M - 1)) = M ∧
      ∀ (remote : Except String Unit) (uri : String) (dn : Option String),
        addParticipant (addTimes (createConference (initState true)
          (Except.ok ()) { maxParticipants := some M, locked := none }
          "sip:self@x" none).state (M - 1)) remote uri dn =
          { result := Except.error "Conference is full"
            state := addTimes (createConference (initState true) (Except.ok ())
              { maxParticipants := some M, locked := none }
              "sip:self@x" none).state (M - 1)
            events := [] } := by
  intro M hM
  have hM0 : M ≠ 0 := by omega
  have hmaxeq : orDefaultNat (some M) DEFAULT_MAX_PARTICIPANTS = M := by
    unfold orDefaultNat
    simp [hM0]
  have hcr := createConference_ok_eq (initState true)
    { maxParticipants := some M, locked := none } "sip:self@x" none rfl rfl
  have hconf : (createConference (initState true) (Except.ok ())
      { maxParticipants := some M, locked := none }
      "sip:self@x" none).state.conference =
      some { createdConfBase (initState true)
          { maxParticipants := some M, locked := none } "sip:self@x" none with
        state := ConferenceState.Active
        startedAt := true } := by
    rw [hcr, startMon_conference]
  have hl : ({ createdConfBase (initState true)
      { maxParticipants := some M, locked := none } "sip:self@x" none with
      state := ConferenceState.Active
      startedAt := true } : ConferenceData).isLocked = false := rfl
  have hmax : ({ createdConfBase (initState true)
      { maxParticipants := some M, locked := none } "sip:self@x" none with
      state := ConferenceState.Active
      startedAt := true } : ConferenceData).maxParticipants = M := hmaxeq
  have hkb : keysBelow ({ createdConfBase (initState true)
      { maxParticipants := some M, locked := none } "sip:self@x" none with
      state := ConferenceState.Active
      startedAt := true } : ConferenceData).participants
      (createConference (initState true) (Except.ok ())
        { maxParticipants := some M, locked := none }
        "sip:self@x" none).state.nextId := by
    rw [hcr, startMon_nextId]
    intro x hx
    simp [createdConfBase, createdLocal] at hx
    subst hx
    show (1 : Nat) < 2
    omega
  have hcap : ({ createdConfBase (initState true)
      { maxParticipants := some M, locked := none } "sip:self@x" none with
      state := ConferenceState.Active
      startedAt := true } : ConferenceData).participants.length + (M - 1) ≤ M := by
    simp [createdConfBase]
    omega
  obtain ⟨hok, c3, hc3, hl3, hmax3, hlen3, hkb3⟩ :=
    addTimes_growth M hM0 (M - 1)
      (createConference (initState true) (Except.ok ())
        { maxParticipants := some M, locked := none } "sip:self@x" none).state
      { createdConfBase (initState true)
          { maxParticipants := some M, locked := none } "sip:self@x" none with
        state := ConferenceState.Active
        startedAt := true }
      hconf hl hmax hkb hcap
  have hlenM : c3.participants.length = M := by
    rw [hlen3]
    simp [createdConfBase]
    omega
  refine ⟨?_, hok, ?_, ?_⟩
  · rw [hcr]
    rfl
  · simp [participantCountOf, hc3]
    exact hlenM
  · intro remote uri dn
    have hcapfull : orDefaultNat (some c3.maxParticipants)
        DEFAULT_MAX_PARTICIPANTS ≤ c3.participants.length := by
      rw [hmax3, hmaxeq, hlenM]
    exact addParticipant_full_eq _ c3 remote uri dn hc3 hl3 hcapfull

theorem claim_C1_witness :
    (createConference (initState true) (Except.ok ())
      { maxParticipants := some 3, locked := none } "sip:self@x" none).result =
      Except.ok 0 ∧
    addTimesAllOk (createConference (initState true) (Except.ok ())
      { maxParticipants := some 3, locked := none } "sip:self@x" none).state
      (3 - 1) = true ∧
    participantCountOf (addTimes (createConference (initState true)
      (Except.ok ()) { maxParticipants := some 3, locked := none }
      "sip:self@x" none).state (3 - 1)) = 3 ∧
    ∀ (remote : Except String Unit) (uri : String) (dn : Option String),
      addParticipant (addTimes (createConference (initState true)
        (Except.ok ()) { maxParticipants := some 3, locked := none }
        "sip:self@x" none).state (3 - 1)) remote uri dn =
        { result := Except.error "Conference is full"
          state := addTimes (createConference (initState true) (Except.ok ())
            { maxParticipants := some 3, locked := none }
            "sip:self@x" none).state (3 - 1)
          events := [] } :=
  claim_C1_capacity 3 (by decide)

end DailVue

namespace DailVue

theorem balancedOps_append_pair (t : Nat) :
    ∀ xs : List TimerOp, balancedOps xs = true →
      balancedOps (xs ++ [TimerOp.set t, TimerOp.clear t]) = true
  | [], _ => by simp [balancedOps]
  | [TimerOp.set a], h => by simp [balancedOps] at h
  | [TimerOp.clear a], h => by simp [balancedOps] at h
  | TimerOp.set a :: TimerOp.clear b :: rest, h => by
    simp only [balancedOps, Bool.and_eq_true, beq_iff_eq] at h
    simp only [List.cons_append, balancedOps, Bool.and_eq_true, beq_iff_eq]
    exact ⟨h.1, balancedOps_append_pair t rest h.2⟩
  | TimerOp.set a :: TimerOp.set b :: rest, h => by
    simp [balancedOps] at h
  | TimerOp.clear a :: x :: rest, h => by
    simp [balancedOps] at h

theorem confCycle_spec (s : ConfComposable) (hclient : s.hasClient = true)
    (hact : isActiveOf s = false) (hint : s.audioLevelInterval = none) :
    (confCycle s).hasClient = true ∧ isActiveOf (confCycle s) = false ∧
    (confCycle s).audioLevelInterval = none ∧
    (confCycle s).timerOps =
      s.timerOps ++ [TimerOp.set s.nextTimerId, TimerOp.clear s.nextTimerId] := by
  unfold confCycle
  rw [createConference_ok_eq s { maxParticipants := none, locked := none }
    "sip:self@example.com" none hclient hact]
  simp only [startAudioLevelMonitoring, hint]
  simp [endConference, updateConferenceState, stopAudioLevelMonitoring,
    hclient, isActiveOf, stateOf]

theorem cycle_iterate_spec (n : Nat) :
    (confCycle^[n] (initState true)).hasClient = true ∧
    isActiveOf (confCycle^[n] (initState true)) = false ∧
    (confCycle^[n] (initState true)).audioLevelInterval = none ∧
    balancedOps (confCycle^[n] (initState true)).timerOps = true ∧
    (confCycle^[n] (initState true)).timerOps.length = 2 * n := by
  induction n with
  | zero => exact ⟨rfl, rfl, rfl, rfl, rfl⟩
  | succ n ih =>
    obtain ⟨h1, h2, h3, h4, h5⟩ := ih
    rw [Function.iterate_succ_apply']
    obtain ⟨g1, g2, g3, g4⟩ := confCycle_spec _ h1 h2 h3
    refine ⟨g1, g2, g3, ?_, ?_⟩
    · rw [g4]
      exact balancedOps_append_pair _ _ h4
    · rw [g4, List.length_append, h5]
      simp
      omega

end DailVue

namespace DailVue

/-- C4: on an Active conference with the poll interval running,
`endConference` (with the remote call succeeding) returns successfully,
emits the `state:changed` events for Ending and then Ended (transitioning
Active → Ending → Ended), leaves the conference in the Ended state with
`endedAt` set, clears the audio-level interval exactly once (appending a
single `clear` of the running timer to the trace), and schedules the
deferred clearing of the conference object; moreover, over any number of
full create/end cycles from a fresh composable, the timer trace is a
sequence of matched set/clear pairs — each conference lifecycle starts
one interval and stops it exactly once — and no interval is left running. -/
theorem claim_C4_end_transitions_and_timer_hygiene :
    (∀ (s : ConfComposable) (c : ConferenceData) (t : Nat),
       s.conference = some c → c.state = ConferenceState.Active →
       s.hasClient = true → s.audioLevelInterval = some t →
       (endConference s (Except.ok ())).result = Except.ok () ∧
       (endConference s (Except.ok ())).events =
         [ConferenceEvent.stateChanged c.id ConferenceState.Ending,
          ConferenceEvent.stateChanged c.id ConferenceState.Ended] ∧
       (∃ c2, (endConference s (Except.ok ())).state.conference = some c2 ∧
         c2.state = ConferenceState.Ended ∧ c2.endedAt = true) ∧
       (endConference s (Except.ok ())).state.audioLevelInterval = none ∧
       (endConference s (Except.ok ())).state.timerOps =
         s.timerOps ++ [TimerOp.clear t] ∧
       (endConference s (Except.ok ())).state.clearScheduledCount =
         s.clearScheduledCount + 1) ∧
    (∀ n : Nat,
       (confCycle^[n] (initState true)).audioLevelInterval = none ∧
       balancedOps (confCycle^[n] (initState true)).timerOps = true ∧
       (confCycle^[n] (initState true)).timerOps.length = 2 * n) := by
  constructor
  · intro s c t hc hact hclient hint
    have heq : endConference s (Except.ok ()) =
        { result := Except.ok ()
          state := { s with
            conference := some { c with
              state := ConferenceState.Ended
              endedAt := true }
            audioLevelInterval := none
            timerOps := s.timerOps ++ [TimerOp.clear t]
            clearScheduledCount := s.clearScheduledCount + 1 }
          events :=
            [ConferenceEvent.stateChanged c.id ConferenceState.Ending,
             ConferenceEvent.stateChanged c.id ConferenceState.Ended] } := by
      unfold endConference
      rw [hc]
      simp [updateConferenceState, hc, hclient, stopAudioLevelMonitoring, hint]
    rw [heq]
    exact ⟨rfl, rfl, ⟨_, rfl, rfl, rfl⟩, rfl, rfl, rfl⟩
  · intro n
    obtain ⟨h1, h2, h3, h4, h5⟩ := cycle_iterate_spec n
    exact ⟨h3, h4, h5⟩

theorem claim_C4_witness :
    ((endConference demoState (Except.ok ())).result = Except.ok () ∧
      (endConference demoState (Except.ok ())).events =
        [ConferenceEvent.stateChanged demoConf.id ConferenceState.Ending,
         ConferenceEvent.stateChanged demoConf.id ConferenceState.Ended] ∧
      (∃ c2, (endConference demoState (Except.ok ())).state.conference =
          some c2 ∧
        c2.state = ConferenceState.Ended ∧ c2.endedAt = true) ∧
      (endConference demoState (Except.ok ())).state.audioLevelInterval =
        none ∧
      (endConference demoState (Except.ok ())).state.timerOps =
        demoState.timerOps ++ [TimerOp.clear 0] ∧
      (endConference demoState (Except.ok ())).state.clearScheduledCount =
        demoState.clearScheduledCount + 1) ∧
    ((confCycle^[2] (initState true)).audioLevelInterval = none ∧
      balancedOps (confCycle^[2] (initState true)).timerOps = true ∧
      (confCycle^[2] (initState true)).timerOps.length = 2 * 2) :=
  ⟨claim_C4_end_transitions_and_timer_hygiene.1 demoState demoConf 0
      rfl rfl rfl rfl,
   claim_C4_end_transitions_and_timer_hygiene.2 2⟩

end DailVue
